import Mathlib

/-!
Shallow embedding of `lib/old/toxencryptsave.js` (node-toxcore): the
buffer-sizing and dual-invocation contract layer around the
libtoxencryptsave primitives.

Modelling conventions:
* Byte buffers carry only their byte length (`Buffer.size`); the provider
  fills contents opaquely, and `String` arguments are converted to buffers
  by the source before any length arithmetic, so only lengths matter here.
* Each ffi primitive round trip is modelled by its observable outcome,
  `Except JsError Int`: either the ffi layer delivers an error (the `err`
  argument of an `.async` completion, or a synchronous throw) or the
  primitive's integer return value.
* A blocking (sync) run is `SRun`: the returned value or thrown error, plus
  the list of primitives invoked.  A non-blocking run is `ARun`: the list of
  completion-handler invocations `(err, value)`, the primitives invoked, and
  any exception that escaped a completion context into the event loop.
-/

/-- Structured (non-string) diagnostic payload that an error constructor can
attach to an Error object: the taxonomy data of `NonZeroReturnError` and
`ReturnMismatchError`. -/
inductive ToxErrorKind where
  | nonZeroReturn (op : String) (code : Int)
  | returnMismatch (op : String) (returned : Int) (expected : Int)
  deriving DecidableEq, Repr

/-- A JS `Error` value as observable by a caller: its `name`, its `message`
string, and any structured diagnostic payload attached by the constructor
that built it (`none` for a plain `new Error(msg)`). -/
structure JsError where
  name : String := "Error"
  message : String
  kind : Option ToxErrorKind := none
  deriving DecidableEq, Repr

/-- Modelled from the spec: `errors.createNonZeroReturnError` lives in
`lib/old/errors.js`, which is not under src/.  Spec §4.4:
"`NonZeroReturnError(operation, code)` … carries the operation name and raw
code for diagnostics", as a distinguishable (non-stringly) kind. -/
def createNonZeroReturnError (op : String) (code : Int) : JsError :=
  { message := "non-zero return value from " ++ op
    kind := some (.nonZeroReturn op code) }

/-- Modelled from the spec: `errors.createReturnError` lives in
`lib/old/errors.js`, which is not under src/.  Spec §4.4:
"`ReturnMismatchError(operation, actualBytesWritten, expectedLength)`", a
distinguishable kind carrying all three diagnostics. -/
def createReturnError (op : String) (returned expected : Int) : JsError :=
  { message := "unexpected return value from " ++ op
    kind := some (.returnMismatch op returned expected) }

/-- From src: `ToxEncryptSave.prototype._createNoHandleError` builds a plain
`new Error('No handle')` — no subclass, no attached fields, only the
message string. -/
def createNoHandleError : JsError :=
  { message := "No handle" }

/-- A JS byte buffer, modelled by its byte length. -/
structure Buffer where
  size : Nat
  deriving DecidableEq, Repr

/-- `new Buffer(n)` for a computed (possibly negative) numeric length.
On Node ≥ 4 a negative size throws an untyped `RangeError`; on the
Node 0.10/0.12 era this code targeted, a negative size was clamped to an
empty buffer and execution continued.  Neither raises any typed
input-validation error.  We model the throwing behaviour and note the clamp
variant where a claim depends on it. -/
def allocBuffer (n : Int) : Except JsError Buffer :=
  if n < 0 then .error { name := "RangeError", message := "Invalid typed array length" }
  else .ok ⟨n.toNat⟩

/-- One mocked outcome per ffi primitive of the toxencryptsave library
(the table built by `createLibrary`).  Each field is the outcome of the
round trip if that primitive is invoked: an ffi-layer error or the
primitive's integer return value.  Claims quantify over these outcomes. -/
structure Provider where
  tox_pass_encryption_extra_length : Except JsError Int
  tox_pass_key_length : Except JsError Int
  tox_pass_salt_length : Except JsError Int
  tox_encrypted_size : Except JsError Int
  tox_pass_encrypt : Except JsError Int
  tox_encrypted_save : Except JsError Int
  tox_pass_decrypt : Except JsError Int
  tox_encrypted_load : Except JsError Int
  tox_derive_key_from_pass : Except JsError Int
  tox_derive_key_with_salt : Except JsError Int
  tox_get_salt : Except JsError Int
  tox_pass_key_encrypt : Except JsError Int
  tox_encrypted_key_save : Except JsError Int
  tox_pass_key_decrypt : Except JsError Int
  tox_encrypted_key_load : Except JsError Int
  tox_is_data_encrypted : Except JsError Int

/-- A `ToxEncryptSave` instance, reduced to the state its control flow
reads: whether `getHandle()` returns a truthy handle (`this._tox &&
this._tox.handle`), and the `this._sync` flag. -/
structure ToxEncryptSave where
  hasHandle : Bool
  syncFlag : Bool
  deriving DecidableEq, Repr

/-- The constructor's handling of `opts['sync']`: `undefined`/`null`
(modelled as `none`) selects `true`, otherwise `!!opts['sync']`. -/
def mkToxEncryptSave (hasHandle : Bool) (syncOpt : Option Bool) : ToxEncryptSave :=
  { hasHandle := hasHandle
    syncFlag := match syncOpt with
      | none => true
      | some b => b }

/-- Modelled from the spec: `sync.hasCallback` lives in `lib/old/sync.js`,
which is not under src/.  Spec §4.3 decision rule: "use non-blocking
execution with a real completion handler whenever one is supplied by the
caller"; we carry "a completion handler was supplied" as a `Bool`. -/
def hasCallback (cb : Bool) : Bool := cb

/-- `ToxEncryptSave.prototype._useSync`:
`return (this._sync && !sync.hasCallback(args));`. -/
def ToxEncryptSave.useSync (es : ToxEncryptSave) (cb : Bool) : Bool :=
  es.syncFlag && !(hasCallback cb)

/-- Outcome of a blocking (Sync) operation: the returned value or the thrown
error, together with the ffi primitives invoked, in order. -/
structure SRun (A : Type) where
  result : Except JsError A
  calls : List String

/-- Outcome of a non-blocking operation: the completion-handler invocations
`(err, value)` in order, the ffi primitives invoked, and any exception that
escaped a completion callback into the event loop. -/
structure ARun (A : Type) where
  cbs : List (Option JsError × Option A)
  calls : List String
  thrown : Option JsError := none

/-- Outcome of a public entry point: either the blocking path ran (the entry
delegated to the Sync twin and returned/threw its outcome), or the
non-blocking path ran. -/
inductive Outcome (A : Type) where
  | sync : SRun A → Outcome A
  | async : ARun A → Outcome A

/-- Invoke one ffi primitive synchronously and continue with its return
value; an ffi-layer throw propagates. -/
def scall {A : Type} (name : String) (r : Except JsError Int)
    (k : Int → SRun A) : SRun A :=
  match r with
  | .error e => { result := .error e, calls := [name] }
  | .ok v =>
    let out := k v
    { result := out.result, calls := name :: out.calls }

/-- Invoke one ffi primitive via `.async` and continue in its completion
callback with `(err, res)`. -/
def acall {A : Type} (name : String) (r : Except JsError Int)
    (k : Except JsError Int → ARun A) : ARun A :=
  let out := k r
  { out with calls := name :: out.calls }

/-- `if(callback) callback(err, value)`. -/
def emit {A : Type} (cb : Bool) (e : Option JsError) (a : Option A) :
    List (Option JsError × Option A) :=
  if cb then [(e, a)] else []

/-- Modelled from the spec: `TOX_SALT_LENGTH = consts.TOX_SALT_LENGTH`,
where `lib/old/consts.js` is not under src/.  Spec §8: "saltLength = 32
(constant)" (the source comments it as
crypto_pwhash_scryptsalsa208sha256_SALTBYTES). -/
def TOX_SALT_LENGTH : Nat := 32

/-! Blocking (Sync) operations, translated from the source one for one. -/

/-- `getEncryptionExtraLengthSync`. -/
def getEncryptionExtraLengthSync (p : Provider) : SRun Int :=
  scall "tox_pass_encryption_extra_length" p.tox_pass_encryption_extra_length
    (fun v => { result := .ok v, calls := [] })

/-- `getKeyLengthSync`. -/
def getKeyLengthSync (p : Provider) : SRun Int :=
  scall "tox_pass_key_length" p.tox_pass_key_length
    (fun v => { result := .ok v, calls := [] })

/-- `getSaltLengthSync`. -/
def getSaltLengthSync (p : Provider) : SRun Int :=
  scall "tox_pass_salt_length" p.tox_pass_salt_length
    (fun v => { result := .ok v, calls := [] })

/-- `getEncryptedSizeSync`: `_checkHandleSync()` throws the no-handle error,
then `tox_encrypted_size(handle)`. -/
def getEncryptedSizeSync (es : ToxEncryptSave) (p : Provider) : SRun Int :=
  if !es.hasHandle then { result := .error createNoHandleError, calls := [] }
  else scall "tox_encrypted_size" p.tox_encrypted_size
    (fun v => { result := .ok v, calls := [] })

/-- `passEncryptSync`: allocates `new Buffer(data.length +
getEncryptionExtraLengthSync())`, calls `tox_pass_encrypt`, throws a
non-zero-return error on `res !== 0`, else returns the buffer. -/
def passEncryptSync (p : Provider) (dataLen passLen : Nat) : SRun Buffer :=
  scall "tox_pass_encryption_extra_length" p.tox_pass_encryption_extra_length
    (fun extra =>
      match allocBuffer ((dataLen : Int) + extra) with
      | .error e => { result := .error e, calls := [] }
      | .ok outBuffer =>
        scall "tox_pass_encrypt" p.tox_pass_encrypt (fun res =>
          if res = 0 then { result := .ok outBuffer, calls := [] }
          else { result := .error (createNonZeroReturnError "tox_pass_encrypt" res)
                 calls := [] }))

/-- `passDecryptSync`: allocates `new Buffer(data.length −
getEncryptionExtraLengthSync())` with no underflow validation (the source
carries a `@todo` about it), calls `tox_pass_decrypt`, and throws a
return-mismatch error unless `res === outBuffer.length`. -/
def passDecryptSync (p : Provider) (dataLen passLen : Nat) : SRun Buffer :=
  scall "tox_pass_encryption_extra_length" p.tox_pass_encryption_extra_length
    (fun extra =>
      match allocBuffer ((dataLen : Int) - extra) with
      | .error e => { result := .error e, calls := [] }
      | .ok outBuffer =>
        scall "tox_pass_decrypt" p.tox_pass_decrypt (fun res =>
          if res = (outBuffer.size : Int) then { result := .ok outBuffer, calls := [] }
          else { result := .error
                   (createReturnError "tox_pass_decrypt" res outBuffer.size)
                 calls := [] }))

/-- `encryptedLoadSync`: handle gate, then `tox_encrypted_load`; non-zero
result throws, success returns nothing (in-place restore). -/
def encryptedLoadSync (es : ToxEncryptSave) (p : Provider)
    (dataLen passLen : Nat) : SRun Unit :=
  if !es.hasHandle then { result := .error createNoHandleError, calls := [] }
  else scall "tox_encrypted_load" p.tox_encrypted_load (fun res =>
    if res = 0 then { result := .ok (), calls := [] }
    else { result := .error (createNonZeroReturnError "tox_encrypted_load" res)
           calls := [] })

/-- `encryptedSaveSync`: handle gate, `getEncryptedSizeSync()` (whose own
gate re-checks the already-present handle), allocate, `tox_encrypted_save`,
non-zero result throws. -/
def encryptedSaveSync (es : ToxEncryptSave) (p : Provider)
    (passLen : Nat) : SRun Buffer :=
  if !es.hasHandle then { result := .error createNoHandleError, calls := [] }
  else scall "tox_encrypted_size" p.tox_encrypted_size (fun encSize =>
    match allocBuffer encSize with
    | .error e => { result := .error e, calls := [] }
    | .ok outBuffer =>
      scall "tox_encrypted_save" p.tox_encrypted_save (fun res =>
        if res = 0 then { result := .ok outBuffer, calls := [] }
        else { result := .error (createNonZeroReturnError "tox_encrypted_save" res)
               calls := [] }))

/-- `deriveKeyFromPassSync`: `new Buffer(getKeyLengthSync())`, then
`tox_derive_key_from_pass`. -/
def deriveKeyFromPassSync (p : Provider) (passLen : Nat) : SRun Buffer :=
  scall "tox_pass_key_length" p.tox_pass_key_length (fun keyLength =>
    match allocBuffer keyLength with
    | .error e => { result := .error e, calls := [] }
    | .ok outBuffer =>
      scall "tox_derive_key_from_pass" p.tox_derive_key_from_pass (fun res =>
        if res = 0 then { result := .ok outBuffer, calls := [] }
        else { result := .error
                 (createNonZeroReturnError "tox_derive_key_from_pass" res)
               calls := [] }))

/-- `deriveKeyWithSaltSync`: `new Buffer(getKeyLengthSync())`, then
`tox_derive_key_with_salt`. -/
def deriveKeyWithSaltSync (p : Provider) (passLen saltLen : Nat) : SRun Buffer :=
  scall "tox_pass_key_length" p.tox_pass_key_length (fun keyLength =>
    match allocBuffer keyLength with
    | .error e => { result := .error e, calls := [] }
    | .ok outBuffer =>
      scall "tox_derive_key_with_salt" p.tox_derive_key_with_salt (fun res =>
        if res = 0 then { result := .ok outBuffer, calls := [] }
        else { result := .error
                 (createNonZeroReturnError "tox_derive_key_with_salt" res)
               calls := [] }))

/-- `getSaltSync`: `new Buffer(TOX_SALT_LENGTH)` — the constant, no length
query — then `tox_get_salt`; non-zero result throws. -/
def getSaltSync (p : Provider) (dataLen : Nat) : SRun Buffer :=
  scall "tox_get_salt" p.tox_get_salt (fun res =>
    if res = 0 then { result := .ok ⟨TOX_SALT_LENGTH⟩, calls := [] }
    else { result := .error (createNonZeroReturnError "tox_get_salt" res)
           calls := [] })

/-- `passKeyEncryptSync`: extra-length query, `new Buffer(data.length +
extraLength)`, then `tox_pass_key_encrypt`. -/
def passKeyEncryptSync (p : Provider) (dataLen keyLen : Nat) : SRun Buffer :=
  scall "tox_pass_encryption_extra_length" p.tox_pass_encryption_extra_length
    (fun extraLength =>
      match allocBuffer ((dataLen : Int) + extraLength) with
      | .error e => { result := .error e, calls := [] }
      | .ok outBuffer =>
        scall "tox_pass_key_encrypt" p.tox_pass_key_encrypt (fun res =>
          if res = 0 then { result := .ok outBuffer, calls := [] }
          else { result := .error
                   (createNonZeroReturnError "tox_pass_key_encrypt" res)
                 calls := [] }))

/-- `passKeyDecryptSync`: extra-length query, `new Buffer(data.length −
extraLength)` with no underflow validation (source `@todo`), then
`tox_pass_key_decrypt` with the mismatch check. -/
def passKeyDecryptSync (p : Provider) (dataLen keyLen : Nat) : SRun Buffer :=
  scall "tox_pass_encryption_extra_length" p.tox_pass_encryption_extra_length
    (fun extraLength =>
      match allocBuffer ((dataLen : Int) - extraLength) with
      | .error e => { result := .error e, calls := [] }
      | .ok outBuffer =>
        scall "tox_pass_key_decrypt" p.tox_pass_key_decrypt (fun res =>
          if res = (outBuffer.size : Int) then { result := .ok outBuffer, calls := [] }
          else { result := .error
                   (createReturnError "tox_pass_key_decrypt" res outBuffer.size)
                 calls := [] }))

/-- `encryptedKeySaveSync`: handle gate, size query, allocate,
`tox_encrypted_key_save`. -/
def encryptedKeySaveSync (es : ToxEncryptSave) (p : Provider)
    (keyLen : Nat) : SRun Buffer :=
  if !es.hasHandle then { result := .error createNoHandleError, calls := [] }
  else scall "tox_encrypted_size" p.tox_encrypted_size (fun encSize =>
    match allocBuffer encSize with
    | .error e => { result := .error e, calls := [] }
    | .ok outBuffer =>
      scall "tox_encrypted_key_save" p.tox_encrypted_key_save (fun res =>
        if res = 0 then { result := .ok outBuffer, calls := [] }
        else { result := .error
                 (createNonZeroReturnError "tox_encrypted_key_save" res)
               calls := [] }))

/-- `encryptedKeyLoadSync`: handle gate, then `tox_encrypted_key_load`. -/
def encryptedKeyLoadSync (es : ToxEncryptSave) (p : Provider)
    (dataLen keyLen : Nat) : SRun Unit :=
  if !es.hasHandle then { result := .error createNoHandleError, calls := [] }
  else scall "tox_encrypted_key_load" p.tox_encrypted_key_load (fun res =>
    if res = 0 then { result := .ok (), calls := [] }
    else { result := .error (createNonZeroReturnError "tox_encrypted_key_load" res)
           calls := [] })

/-- `isDataEncryptedSync`: returns `(tox_is_data_encrypted(data) === 1)`;
the return value is coerced, never classified as an error. -/
def isDataEncryptedSync (p : Provider) (dataLen : Nat) : SRun Bool :=
  scall "tox_is_data_encrypted" p.tox_is_data_encrypted (fun res =>
    { result := .ok (res == 1), calls := [] })

/-! Non-blocking (async) operation bodies, translated from the source one
for one.  `cb` says whether the caller supplied a completion handler. -/

/-- `getEncryptionExtraLength` on the async path: callback handed directly
to `tox_pass_encryption_extra_length.async`. -/
def getEncryptionExtraLengthAsync (p : Provider) (cb : Bool) : ARun Int :=
  acall "tox_pass_encryption_extra_length" p.tox_pass_encryption_extra_length
    (fun r =>
      match r with
      | .error e => { cbs := emit cb (some e) none, calls := [] }
      | .ok v => { cbs := emit cb none (some v), calls := [] })

/-- `getKeyLength` on the async path. -/
def getKeyLengthAsync (p : Provider) (cb : Bool) : ARun Int :=
  acall "tox_pass_key_length" p.tox_pass_key_length
    (fun r =>
      match r with
      | .error e => { cbs := emit cb (some e) none, calls := [] }
      | .ok v => { cbs := emit cb none (some v), calls := [] })

/-- `getSaltLength` on the async path. -/
def getSaltLengthAsync (p : Provider) (cb : Bool) : ARun Int :=
  acall "tox_pass_salt_length" p.tox_pass_salt_length
    (fun r =>
      match r with
      | .error e => { cbs := emit cb (some e) none, calls := [] }
      | .ok v => { cbs := emit cb none (some v), calls := [] })

/-- `getEncryptedSize` on the async path: `_checkHandle(callback)` delivers
the no-handle error to the callback and suppresses the ffi call only when a
callback is present; with no callback it returns true and the ffi call is
issued with the absent handle. -/
def getEncryptedSizeAsync (es : ToxEncryptSave) (p : Provider) (cb : Bool) :
    ARun Int :=
  if !es.hasHandle && cb then
    { cbs := [(some createNoHandleError, none)], calls := [] }
  else
    acall "tox_encrypted_size" p.tox_encrypted_size
      (fun r =>
        match r with
        | .error e => { cbs := emit cb (some e) none, calls := [] }
        | .ok v => { cbs := emit cb none (some v), calls := [] })

/-- The nested call `this.getEncryptedSize(inner)` made by the save
operations, where `inner` is a real function: it dispatches to
`getEncryptedSize`'s async path, whose `_checkHandle(inner)` feeds `inner`
the no-handle error without touching the provider. -/
def getEncryptedSizeCont {A : Type} (es : ToxEncryptSave) (p : Provider)
    (k : Except JsError Int → ARun A) : ARun A :=
  if !es.hasHandle then k (.error createNoHandleError)
  else acall "tox_encrypted_size" p.tox_encrypted_size k

/-- `passEncrypt` on the async path: extra-length query (itself dispatched
with a real inner callback), allocate `data.length + extraLength`, then
`tox_pass_encrypt`; the inner completion runs
`if(!err && res !== 0) err = …; if(callback) callback(err, outBuffer)`. -/
def passEncryptAsync (p : Provider) (dataLen passLen : Nat) (cb : Bool) :
    ARun Buffer :=
  acall "tox_pass_encryption_extra_length" p.tox_pass_encryption_extra_length
    (fun r =>
      match r with
      | .error e => { cbs := emit cb (some e) none, calls := [] }
      | .ok extraLength =>
        match allocBuffer ((dataLen : Int) + extraLength) with
        | .error e => { cbs := [], calls := [], thrown := some e }
        | .ok outBuffer =>
          acall "tox_pass_encrypt" p.tox_pass_encrypt
            (fun r2 =>
              match r2 with
              | .error e => { cbs := emit cb (some e) (some outBuffer), calls := [] }
              | .ok res =>
                if res = 0 then
                  { cbs := emit cb none (some outBuffer), calls := [] }
                else
                  { cbs := emit cb
                      (some (createNonZeroReturnError "tox_pass_encrypt" res))
                      (some outBuffer)
                    calls := [] }))

/-- `passDecrypt` on the async path: extra-length query, allocate
`data.length − extraLength` (no underflow validation; a negative size
throws inside the completion callback, reaching no handler), then
`tox_pass_decrypt` with the `res !== outBuffer.length` mismatch check;
the inner completion always passes `outBuffer` as second argument. -/
def passDecryptAsync (p : Provider) (dataLen passLen : Nat) (cb : Bool) :
    ARun Buffer :=
  acall "tox_pass_encryption_extra_length" p.tox_pass_encryption_extra_length
    (fun r =>
      match r with
      | .error e => { cbs := emit cb (some e) none, calls := [] }
      | .ok extraLength =>
        match allocBuffer ((dataLen : Int) - extraLength) with
        | .error e => { cbs := [], calls := [], thrown := some e }
        | .ok outBuffer =>
          acall "tox_pass_decrypt" p.tox_pass_decrypt
            (fun r2 =>
              match r2 with
              | .error e => { cbs := emit cb (some e) (some outBuffer), calls := [] }
              | .ok res =>
                if res = (outBuffer.size : Int) then
                  { cbs := emit cb none (some outBuffer), calls := [] }
                else
                  { cbs := emit cb
                      (some (createReturnError "tox_pass_decrypt" res outBuffer.size))
                      (some outBuffer)
                    calls := [] }))

/-- `encryptedLoad` on the async path: `_checkHandle(callback)` (same
no-callback gap as `getEncryptedSize`), then `tox_encrypted_load`; its inner
completion is a real function, so the ffi call is issued even with no
callback, and the callback — when present — receives only the error slot. -/
def encryptedLoadAsync (es : ToxEncryptSave) (p : Provider)
    (dataLen passLen : Nat) (cb : Bool) : ARun Unit :=
  if !es.hasHandle && cb then
    { cbs := [(some createNoHandleError, none)], calls := [] }
  else
    acall "tox_encrypted_load" p.tox_encrypted_load
      (fun r =>
        match r with
        | .error e => { cbs := emit cb (some e) none, calls := [] }
        | .ok res =>
          if res = 0 then { cbs := emit cb none none, calls := [] }
          else
            { cbs := emit cb
                (some (createNonZeroReturnError "tox_encrypted_load" res)) none
              calls := [] })

/-- `encryptedSave` on the async path: `_checkHandle(callback)`, then
`this.getEncryptedSize(inner)`, allocate the reported size, then
`tox_encrypted_save`. -/
def encryptedSaveAsync (es : ToxEncryptSave) (p : Provider)
    (passLen : Nat) (cb : Bool) : ARun Buffer :=
  if !es.hasHandle && cb then
    { cbs := [(some createNoHandleError, none)], calls := [] }
  else
    getEncryptedSizeCont es p
      (fun r =>
        match r with
        | .error e => { cbs := emit cb (some e) none, calls := [] }
        | .ok encSize =>
          match allocBuffer encSize with
          | .error e => { cbs := [], calls := [], thrown := some e }
          | .ok outBuffer =>
            acall "tox_encrypted_save" p.tox_encrypted_save
              (fun r2 =>
                match r2 with
                | .error e => { cbs := emit cb (some e) (some outBuffer), calls := [] }
                | .ok res =>
                  if res = 0 then
                    { cbs := emit cb none (some outBuffer), calls := [] }
                  else
                    { cbs := emit cb
                        (some (createNonZeroReturnError "tox_encrypted_save" res))
                        (some outBuffer)
                      calls := [] }))

/-- `deriveKeyFromPass` on the async path: key-length query, allocate, then
`tox_derive_key_from_pass`. -/
def deriveKeyFromPassAsync (p : Provider) (passLen : Nat) (cb : Bool) :
    ARun Buffer :=
  acall "tox_pass_key_length" p.tox_pass_key_length
    (fun r =>
      match r with
      | .error e => { cbs := emit cb (some e) none, calls := [] }
      | .ok keyLength =>
        match allocBuffer keyLength with
        | .error e => { cbs := [], calls := [], thrown := some e }
        | .ok outBuffer =>
          acall "tox_derive_key_from_pass" p.tox_derive_key_from_pass
            (fun r2 =>
              match r2 with
              | .error e => { cbs := emit cb (some e) (some outBuffer), calls := [] }
              | .ok res =>
                if res = 0 then
                  { cbs := emit cb none (some outBuffer), calls := [] }
                else
                  { cbs := emit cb
                      (some (createNonZeroReturnError "tox_derive_key_from_pass" res))
                      (some outBuffer)
                    calls := [] }))

/-- `deriveKeyWithSalt` on the async path: key-length query, allocate, then
`tox_derive_key_with_salt`. -/
def deriveKeyWithSaltAsync (p : Provider) (passLen saltLen : Nat) (cb : Bool) :
    ARun Buffer :=
  acall "tox_pass_key_length" p.tox_pass_key_length
    (fun r =>
      match r with
      | .error e => { cbs := emit cb (some e) none, calls := [] }
      | .ok keyLength =>
        match allocBuffer keyLength with
        | .error e => { cbs := [], calls := [], thrown := some e }
        | .ok outBuffer =>
          acall "tox_derive_key_with_salt" p.tox_derive_key_with_salt
            (fun r2 =>
              match r2 with
              | .error e => { cbs := emit cb (some e) (some outBuffer), calls := [] }
              | .ok res =>
                if res = 0 then
                  { cbs := emit cb none (some outBuffer), calls := [] }
                else
                  { cbs := emit cb
                      (some (createNonZeroReturnError "tox_derive_key_with_salt" res))
                      (some outBuffer)
                    calls := [] }))

/-- `getSalt` on the async path: `new Buffer(TOX_SALT_LENGTH)` up front (a
constant — no length-query round trip), then `tox_get_salt`; the inner
completion always passes `saltBuffer` as second argument. -/
def getSaltAsync (p : Provider) (dataLen : Nat) (cb : Bool) : ARun Buffer :=
  acall "tox_get_salt" p.tox_get_salt
    (fun r =>
      match r with
      | .error e => { cbs := emit cb (some e) (some ⟨TOX_SALT_LENGTH⟩), calls := [] }
      | .ok res =>
        if res = 0 then
          { cbs := emit cb none (some ⟨TOX_SALT_LENGTH⟩), calls := [] }
        else
          { cbs := emit cb
              (some (createNonZeroReturnError "tox_get_salt" res))
              (some ⟨TOX_SALT_LENGTH⟩)
            calls := [] })

/-- `passKeyEncrypt` on the async path: extra-length query, allocate
`data.length + extraLength`, then `tox_pass_key_encrypt`. -/
def passKeyEncryptAsync (p : Provider) (dataLen keyLen : Nat) (cb : Bool) :
    ARun Buffer :=
  acall "tox_pass_encryption_extra_length" p.tox_pass_encryption_extra_length
    (fun r =>
      match r with
      | .error e => { cbs := emit cb (some e) none, calls := [] }
      | .ok extraLength =>
        match allocBuffer ((dataLen : Int) + extraLength) with
        | .error e => { cbs := [], calls := [], thrown := some e }
        | .ok outBuffer =>
          acall "tox_pass_key_encrypt" p.tox_pass_key_encrypt
            (fun r2 =>
              match r2 with
              | .error e => { cbs := emit cb (some e) (some outBuffer), calls := [] }
              | .ok res =>
                if res = 0 then
                  { cbs := emit cb none (some outBuffer), calls := [] }
                else
                  { cbs := emit cb
                      (some (createNonZeroReturnError "tox_pass_key_encrypt" res))
                      (some outBuffer)
                    calls := [] }))

/-- `passKeyDecrypt` on the async path: extra-length query, allocate
`data.length − extraLength` (no underflow validation; source `@todo`), then
`tox_pass_key_decrypt` with the mismatch check. -/
def passKeyDecryptAsync (p : Provider) (dataLen keyLen : Nat) (cb : Bool) :
    ARun Buffer :=
  acall "tox_pass_encryption_extra_length" p.tox_pass_encryption_extra_length
    (fun r =>
      match r with
      | .error e => { cbs := emit cb (some e) none, calls := [] }
      | .ok extraLength =>
        match allocBuffer ((dataLen : Int) - extraLength) with
        | .error e => { cbs := [], calls := [], thrown := some e }
        | .ok outBuffer =>
          acall "tox_pass_key_decrypt" p.tox_pass_key_decrypt
            (fun r2 =>
              match r2 with
              | .error e => { cbs := emit cb (some e) (some outBuffer), calls := [] }
              | .ok res =>
                if res = (outBuffer.size : Int) then
                  { cbs := emit cb none (some outBuffer), calls := [] }
                else
                  { cbs := emit cb
                      (some (createReturnError "tox_pass_key_decrypt" res outBuffer.size))
                      (some outBuffer)
                    calls := [] }))

/-- `encryptedKeySave` on the async path: `_checkHandle(callback)`, nested
`this.getEncryptedSize(inner)`, allocate, then `tox_encrypted_key_save`. -/
def encryptedKeySaveAsync (es : ToxEncryptSave) (p : Provider)
    (keyLen : Nat) (cb : Bool) : ARun Buffer :=
  if !es.hasHandle && cb then
    { cbs := [(some createNoHandleError, none)], calls := [] }
  else
    getEncryptedSizeCont es p
      (fun r =>
        match r with
        | .error e => { cbs := emit cb (some e) none, calls := [] }
        | .ok encSize =>
          match allocBuffer encSize with
          | .error e => { cbs := [], calls := [], thrown := some e }
          | .ok outBuffer =>
            acall "tox_encrypted_key_save" p.tox_encrypted_key_save
              (fun r2 =>
                match r2 with
                | .error e => { cbs := emit cb (some e) (some outBuffer), calls := [] }
                | .ok res =>
                  if res = 0 then
                    { cbs := emit cb none (some outBuffer), calls := [] }
                  else
                    { cbs := emit cb
                        (some (createNonZeroReturnError "tox_encrypted_key_save" res))
                        (some outBuffer)
                      calls := [] }))

/-- `encryptedKeyLoad` on the async path: `_checkHandle(callback)` (same
no-callback gap), then `tox_encrypted_key_load`; error-only callback. -/
def encryptedKeyLoadAsync (es : ToxEncryptSave) (p : Provider)
    (dataLen keyLen : Nat) (cb : Bool) : ARun Unit :=
  if !es.hasHandle && cb then
    { cbs := [(some createNoHandleError, none)], calls := [] }
  else
    acall "tox_encrypted_key_load" p.tox_encrypted_key_load
      (fun r =>
        match r with
        | .error e => { cbs := emit cb (some e) none, calls := [] }
        | .ok res =>
          if res = 0 then { cbs := emit cb none none, calls := [] }
          else
            { cbs := emit cb
                (some (createNonZeroReturnError "tox_encrypted_key_load" res)) none
              calls := [] })

/-- `isDataEncrypted` on the async path: `tox_is_data_encrypted`, result
coerced to `res === 1`; `isEnc` stays undefined when the ffi layer errs. -/
def isDataEncryptedAsync (p : Provider) (dataLen : Nat) (cb : Bool) :
    ARun Bool :=
  acall "tox_is_data_encrypted" p.tox_is_data_encrypted
    (fun r =>
      match r with
      | .error e => { cbs := emit cb (some e) none, calls := [] }
      | .ok res => { cbs := emit cb none (some (res == 1)), calls := [] })

/-! Public entry points: each checks `_useSync(arguments)` and either
delegates to its Sync twin (returning/throwing exactly its outcome) or runs
the async body. -/

/-- Public `getEncryptionExtraLength`. -/
def getEncryptionExtraLength (es : ToxEncryptSave) (p : Provider) (cb : Bool) :
    Outcome Int :=
  if es.useSync cb then .sync (getEncryptionExtraLengthSync p)
  else .async (getEncryptionExtraLengthAsync p cb)

/-- Public `getKeyLength`. -/
def getKeyLength (es : ToxEncryptSave) (p : Provider) (cb : Bool) : Outcome Int :=
  if es.useSync cb then .sync (getKeyLengthSync p)
  else .async (getKeyLengthAsync p cb)

/-- Public `getSaltLength`. -/
def getSaltLength (es : ToxEncryptSave) (p : Provider) (cb : Bool) : Outcome Int :=
  if es.useSync cb then .sync (getSaltLengthSync p)
  else .async (getSaltLengthAsync p cb)

/-- Public `getEncryptedSize`. -/
def getEncryptedSize (es : ToxEncryptSave) (p : Provider) (cb : Bool) :
    Outcome Int :=
  if es.useSync cb then .sync (getEncryptedSizeSync es p)
  else .async (getEncryptedSizeAsync es p cb)

/-- Public `passEncrypt`. -/
def passEncrypt (es : ToxEncryptSave) (p : Provider) (dataLen passLen : Nat)
    (cb : Bool) : Outcome Buffer :=
  if es.useSync cb then .sync (passEncryptSync p dataLen passLen)
  else .async (passEncryptAsync p dataLen passLen cb)

/-- Public `passDecrypt`. -/
def passDecrypt (es : ToxEncryptSave) (p : Provider) (dataLen passLen : Nat)
    (cb : Bool) : Outcome Buffer :=
  if es.useSync cb then .sync (passDecryptSync p dataLen passLen)
  else .async (passDecryptAsync p dataLen passLen cb)

/-- Public `encryptedLoad`. -/
def encryptedLoad (es : ToxEncryptSave) (p : Provider) (dataLen passLen : Nat)
    (cb : Bool) : Outcome Unit :=
  if es.useSync cb then .sync (encryptedLoadSync es p dataLen passLen)
  else .async (encryptedLoadAsync es p dataLen passLen cb)

/-- Public `encryptedSave`. -/
def encryptedSave (es : ToxEncryptSave) (p : Provider) (passLen : Nat)
    (cb : Bool) : Outcome Buffer :=
  if es.useSync cb then .sync (encryptedSaveSync es p passLen)
  else .async (encryptedSaveAsync es p passLen cb)

/-- Public `deriveKeyFromPass`. -/
def deriveKeyFromPass (es : ToxEncryptSave) (p : Provider) (passLen : Nat)
    (cb : Bool) : Outcome Buffer :=
  if es.useSync cb then .sync (deriveKeyFromPassSync p passLen)
  else .async (deriveKeyFromPassAsync p passLen cb)

/-- Public `deriveKeyWithSalt`. -/
def deriveKeyWithSalt (es : ToxEncryptSave) (p : Provider) (passLen saltLen : Nat)
    (cb : Bool) : Outcome Buffer :=
  if es.useSync cb then .sync (deriveKeyWithSaltSync p passLen saltLen)
  else .async (deriveKeyWithSaltAsync p passLen saltLen cb)

/-- Public `getSalt`. -/
def getSalt (es : ToxEncryptSave) (p : Provider) (dataLen : Nat) (cb : Bool) :
    Outcome Buffer :=
  if es.useSync cb then .sync (getSaltSync p dataLen)
  else .async (getSaltAsync p dataLen cb)

/-- Public `passKeyEncrypt`. -/
def passKeyEncrypt (es : ToxEncryptSave) (p : Provider) (dataLen keyLen : Nat)
    (cb : Bool) : Outcome Buffer :=
  if es.useSync cb then .sync (passKeyEncryptSync p dataLen keyLen)
  else .async (passKeyEncryptAsync p dataLen keyLen cb)

/-- Public `passKeyDecrypt`. -/
def passKeyDecrypt (es : ToxEncryptSave) (p : Provider) (dataLen keyLen : Nat)
    (cb : Bool) : Outcome Buffer :=
  if es.useSync cb then .sync (passKeyDecryptSync p dataLen keyLen)
  else .async (passKeyDecryptAsync p dataLen keyLen cb)

/-- Public `encryptedKeySave`. -/
def encryptedKeySave (es : ToxEncryptSave) (p : Provider) (keyLen : Nat)
    (cb : Bool) : Outcome Buffer :=
  if es.useSync cb then .sync (encryptedKeySaveSync es p keyLen)
  else .async (encryptedKeySaveAsync es p keyLen cb)

/-- Public `encryptedKeyLoad`. -/
def encryptedKeyLoad (es : ToxEncryptSave) (p : Provider) (dataLen keyLen : Nat)
    (cb : Bool) : Outcome Unit :=
  if es.useSync cb then .sync (encryptedKeyLoadSync es p dataLen keyLen)
  else .async (encryptedKeyLoadAsync es p dataLen keyLen cb)

/-- Public `isDataEncrypted`. -/
def isDataEncrypted (es : ToxEncryptSave) (p : Provider) (dataLen : Nat)
    (cb : Bool) : Outcome Bool :=
  if es.useSync cb then .sync (isDataEncryptedSync p dataLen)
  else .async (isDataEncryptedAsync p dataLen cb)

/-- A provider whose every round trip succeeds with return value 0; claims
override the fields they quantify over. -/
def P0 : Provider :=
  { tox_pass_encryption_extra_length := .ok 0
    tox_pass_key_length := .ok 0
    tox_pass_salt_length := .ok 0
    tox_encrypted_size := .ok 0
    tox_pass_encrypt := .ok 0
    tox_encrypted_save := .ok 0
    tox_pass_decrypt := .ok 0
    tox_encrypted_load := .ok 0
    tox_derive_key_from_pass := .ok 0
    tox_derive_key_with_salt := .ok 0
    tox_get_salt := .ok 0
    tox_pass_key_encrypt := .ok 0
    tox_encrypted_key_save := .ok 0
    tox_pass_key_decrypt := .ok 0
    tox_encrypted_key_load := .ok 0
    tox_is_data_encrypted := .ok 0 }

/-- `P0` with the extra-length query reporting `extra`. -/
def withExtra (extra : Int) : Provider :=
  { P0 with tox_pass_encryption_extra_length := .ok extra }

/-- Helper: allocating a buffer of a natural size never throws. -/
theorem allocBuffer_natCast (n : Nat) : allocBuffer (n : Int) = .ok ⟨n⟩ := by
  rw [allocBuffer, if_neg (by omega)]
  simp [Buffer.mk.injEq]

/-- Helper: the encrypt-size sum of two naturals allocates exactly. -/
theorem allocBuffer_add (dataLen extra : Nat) :
    allocBuffer ((dataLen : Int) + (extra : Int)) = .ok ⟨dataLen + extra⟩ := by
  rw [allocBuffer, if_neg (by omega)]
  simp only [Buffer.mk.injEq, Except.ok.injEq]
  omega

/-- Helper: the decrypt-size difference for input `extra + k` allocates a
`k`-byte buffer. -/
theorem allocBuffer_sub (extra k : Nat) :
    allocBuffer (((extra + k : Nat) : Int) - (extra : Int)) = .ok ⟨k⟩ := by
  rw [allocBuffer, if_neg (by omega)]
  simp only [Buffer.mk.injEq, Except.ok.injEq]
  omega

/-- C4: for every input data and secret, passEncrypt/passEncryptSync and
passKeyEncrypt/passKeyEncryptSync allocate and, on success, return an
output buffer whose length equals the input data length plus the
provider-reported extra length, exactly. -/
theorem encrypt_output_length (extra dataLen passLen keyLen : Nat) :
    (passEncryptSync (withExtra extra) dataLen passLen).result
      = .ok ⟨dataLen + extra⟩
    ∧ (passKeyEncryptSync (withExtra extra) dataLen keyLen).result
      = .ok ⟨dataLen + extra⟩
    ∧ (passEncryptAsync (withExtra extra) dataLen passLen true).cbs
      = [(none, some ⟨dataLen + extra⟩)]
    ∧ (passKeyEncryptAsync (withExtra extra) dataLen keyLen true).cbs
      = [(none, some ⟨dataLen + extra⟩)] := by
  simp [passEncryptSync, passKeyEncryptSync, passEncryptAsync, passKeyEncryptAsync,
    withExtra, P0, scall, acall, emit, allocBuffer_add]

/-- C5: passDecrypt/passDecryptSync and passKeyDecrypt/passKeyDecryptSync
(input length `extra + k`, so the precomputed expected output length is `k`)
fail with a ReturnMismatchError carrying the operation name, the returned
byte count and the expected length exactly when the primitive's returned
count differs from `k`, and succeed with the output buffer when it equals
`k`. -/
theorem decrypt_return_mismatch (extra k passLen keyLen : Nat) (res res2 : Int) :
    (passDecryptSync { withExtra extra with tox_pass_decrypt := .ok res }
        (extra + k) passLen).result
      = (if res = (k : Int) then .ok ⟨k⟩
         else .error (createReturnError "tox_pass_decrypt" res (k : Int)))
    ∧ (passKeyDecryptSync { withExtra extra with tox_pass_key_decrypt := .ok res2 }
        (extra + k) keyLen).result
      = (if res2 = (k : Int) then .ok ⟨k⟩
         else .error (createReturnError "tox_pass_key_decrypt" res2 (k : Int)))
    ∧ (passDecryptAsync { withExtra extra with tox_pass_decrypt := .ok res }
        (extra + k) passLen true).cbs
      = [((if res = (k : Int) then none
           else some (createReturnError "tox_pass_decrypt" res (k : Int))),
          some ⟨k⟩)]
    ∧ (passKeyDecryptAsync { withExtra extra with tox_pass_key_decrypt := .ok res2 }
        (extra + k) keyLen true).cbs
      = [((if res2 = (k : Int) then none
           else some (createReturnError "tox_pass_key_decrypt" res2 (k : Int))),
          some ⟨k⟩)] := by
  refine ⟨?_, ?_, ?_, ?_⟩ <;>
    simp [passDecryptSync, passKeyDecryptSync, passDecryptAsync, passKeyDecryptAsync,
      withExtra, P0, scall, acall, emit, allocBuffer_sub, allocBuffer_natCast] <;>
    split <;> simp

/-- C8: getSalt/getSaltSync return, on success, a buffer of the fixed salt
length 32 regardless of the input data length, reach only `tox_get_salt`
(no length-query round trip), and fail with a NonZeroReturnError exactly
when `tox_get_salt` returns non-zero. -/
theorem get_salt_fixed_length (dataLen dataLen2 : Nat) (res : Int) :
    (getSaltSync { P0 with tox_get_salt := .ok res } dataLen)
      = { result := if res = 0 then .ok ⟨TOX_SALT_LENGTH⟩
                    else .error (createNonZeroReturnError "tox_get_salt" res)
          calls := ["tox_get_salt"] }
    ∧ (getSaltAsync { P0 with tox_get_salt := .ok res } dataLen2 true)
      = { cbs := [((if res = 0 then none
                    else some (createNonZeroReturnError "tox_get_salt" res)),
                   some ⟨TOX_SALT_LENGTH⟩)]
          calls := ["tox_get_salt"], thrown := none }
    ∧ TOX_SALT_LENGTH = 32 := by
  refine ⟨?_, ?_, rfl⟩ <;>
    simp [getSaltSync, getSaltAsync, P0, scall, acall, emit] <;>
    split <;> simp

/-- C9: isDataEncrypted/isDataEncryptedSync return the boolean
`res === 1` — true exactly when the primitive returns 1, false for any
other return value — and never turn the primitive's result into a
classified error. -/
theorem is_data_encrypted_boolean (dataLen : Nat) (res : Int) :
    ((isDataEncryptedSync { P0 with tox_is_data_encrypted := .ok res } dataLen).result
      = .ok true ↔ res = 1)
    ∧ (isDataEncryptedSync { P0 with tox_is_data_encrypted := .ok res } dataLen)
      = { result := .ok (res == 1), calls := ["tox_is_data_encrypted"] }
    ∧ (isDataEncryptedAsync { P0 with tox_is_data_encrypted := .ok res } dataLen true)
      = { cbs := [(none, some (res == 1))]
          calls := ["tox_is_data_encrypted"], thrown := none } := by
  refine ⟨?_, ?_, ?_⟩ <;>
    simp [isDataEncryptedSync, isDataEncryptedAsync, P0, scall, acall, emit]

/-- C10: on every multi-step non-blocking operation, an ffi failure of the
preliminary length/size query is delivered to the completion handler in a
single invocation with the error as its only defined argument, and the main
cryptographic primitive is never invoked (the call trace holds only the
preliminary query). -/
theorem preliminary_failure_short_circuit (e : JsError) (s : Bool)
    (dataLen passLen keyLen saltLen : Nat) :
    (passEncryptAsync { P0 with tox_pass_encryption_extra_length := .error e }
        dataLen passLen true)
      = { cbs := [(some e, none)]
          calls := ["tox_pass_encryption_extra_length"], thrown := none }
    ∧ (passDecryptAsync { P0 with tox_pass_encryption_extra_length := .error e }
        dataLen passLen true)
      = { cbs := [(some e, none)]
          calls := ["tox_pass_encryption_extra_length"], thrown := none }
    ∧ (passKeyEncryptAsync { P0 with tox_pass_encryption_extra_length := .error e }
        dataLen keyLen true)
      = { cbs := [(some e, none)]
          calls := ["tox_pass_encryption_extra_length"], thrown := none }
    ∧ (passKeyDecryptAsync { P0 with tox_pass_encryption_extra_length := .error e }
        dataLen keyLen true)
      = { cbs := [(some e, none)]
          calls := ["tox_pass_encryption_extra_length"], thrown := none }
    ∧ (deriveKeyFromPassAsync { P0 with tox_pass_key_length := .error e }
        passLen true)
      = { cbs := [(some e, none)], calls := ["tox_pass_key_length"], thrown := none }
    ∧ (deriveKeyWithSaltAsync { P0 with tox_pass_key_length := .error e }
        passLen saltLen true)
      = { cbs := [(some e, none)], calls := ["tox_pass_key_length"], thrown := none }
    ∧ (encryptedSaveAsync ⟨true, s⟩ { P0 with tox_encrypted_size := .error e }
        passLen true)
      = { cbs := [(some e, none)], calls := ["tox_encrypted_size"], thrown := none }
    ∧ (encryptedKeySaveAsync ⟨true, s⟩ { P0 with tox_encrypted_size := .error e }
        keyLen true)
      = { cbs := [(some e, none)], calls := ["tox_encrypted_size"], thrown := none } := by
  simp [passEncryptAsync, passDecryptAsync, passKeyEncryptAsync, passKeyDecryptAsync,
    deriveKeyFromPassAsync, deriveKeyWithSaltAsync, encryptedSaveAsync,
    encryptedKeySaveAsync, getEncryptedSizeCont, P0, acall, emit]

/-- C1: evaluation of the decrypt-class operations at an input shorter than
the provider-reported extra length (input 5 bytes, extra length 80).  The
code performs no input-length validation and raises no typed
InvalidInputLengthError (none exists in the code): it computes
`new Buffer(5 − 80)`, whose negative size throws an untyped RangeError —
inside the completion callback on the non-blocking path, so the handler is
never told — while on the Node 0.10/0.12 era the same expression clamps to
an empty buffer and the decrypt primitive IS invoked. -/
theorem decrypt_underflow_no_validation :
    (passDecryptSync (withExtra 80) 5 9)
      = { result := .error { name := "RangeError"
                             message := "Invalid typed array length" }
          calls := ["tox_pass_encryption_extra_length"] }
    ∧ (passKeyDecryptSync (withExtra 80) 5 9)
      = { result := .error { name := "RangeError"
                             message := "Invalid typed array length" }
          calls := ["tox_pass_encryption_extra_length"] }
    ∧ (passDecryptAsync (withExtra 80) 5 9 true)
      = { cbs := [], calls := ["tox_pass_encryption_extra_length"]
          thrown := some { name := "RangeError"
                           message := "Invalid typed array length" } }
    ∧ (passKeyDecryptAsync (withExtra 80) 5 9 true)
      = { cbs := [], calls := ["tox_pass_encryption_extra_length"]
          thrown := some { name := "RangeError"
                           message := "Invalid typed array length" } } := by
  exact ⟨rfl, rfl, rfl, rfl⟩

/-- C2: behaviour of the handle gate across calling conventions.  With no
handle present: on the non-blocking convention with a handler, every
handle-bound operation delivers the no-handle error and never touches the
provider; on the blocking convention every one throws the same no-handle
error kind without touching the provider.  But on the non-blocking
convention with no handler (blocking emulation off), `_checkHandle`
returns true — against its own doc comment — and the provider IS invoked
with the absent handle (final three conjuncts), so the claim's "never
reach the provider" fails there. -/
theorem handle_gate_dispatch (p : Provider) (s : Bool)
    (dataLen passLen keyLen : Nat) :
    (getEncryptedSizeAsync ⟨false, s⟩ p true)
      = { cbs := [(some createNoHandleError, none)], calls := [], thrown := none }
    ∧ (encryptedSaveAsync ⟨false, s⟩ p passLen true)
      = { cbs := [(some createNoHandleError, none)], calls := [], thrown := none }
    ∧ (encryptedLoadAsync ⟨false, s⟩ p dataLen passLen true)
      = { cbs := [(some createNoHandleError, none)], calls := [], thrown := none }
    ∧ (encryptedKeySaveAsync ⟨false, s⟩ p keyLen true)
      = { cbs := [(some createNoHandleError, none)], calls := [], thrown := none }
    ∧ (encryptedKeyLoadAsync ⟨false, s⟩ p dataLen keyLen true)
      = { cbs := [(some createNoHandleError, none)], calls := [], thrown := none }
    ∧ (getEncryptedSizeSync ⟨false, s⟩ p)
      = { result := .error createNoHandleError, calls := [] }
    ∧ (encryptedSaveSync ⟨false, s⟩ p passLen)
      = { result := .error createNoHandleError, calls := [] }
    ∧ (encryptedLoadSync ⟨false, s⟩ p dataLen passLen)
      = { result := .error createNoHandleError, calls := [] }
    ∧ (encryptedKeySaveSync ⟨false, s⟩ p keyLen)
      = { result := .error createNoHandleError, calls := [] }
    ∧ (encryptedKeyLoadSync ⟨false, s⟩ p dataLen keyLen)
      = { result := .error createNoHandleError, calls := [] }
    ∧ encryptedLoad ⟨false, false⟩ P0 dataLen passLen false
      = .async { cbs := [], calls := ["tox_encrypted_load"], thrown := none }
    ∧ encryptedKeyLoad ⟨false, false⟩ P0 dataLen keyLen false
      = .async { cbs := [], calls := ["tox_encrypted_key_load"], thrown := none }
    ∧ getEncryptedSize ⟨false, false⟩ P0 false
      = .async { cbs := [], calls := ["tox_encrypted_size"], thrown := none } := by
  simp [getEncryptedSizeAsync, encryptedSaveAsync, encryptedLoadAsync,
    encryptedKeySaveAsync, encryptedKeyLoadAsync, getEncryptedSizeSync,
    encryptedSaveSync, encryptedLoadSync, encryptedKeySaveSync,
    encryptedKeyLoadSync, encryptedLoad, encryptedKeyLoad, getEncryptedSize,
    ToxEncryptSave.useSync, hasCallback, P0, scall, acall, emit]

/-- C3: the dual-mode dispatcher.  Constructing with `sync` omitted selects
blocking emulation; for every public operation, a supplied completion
handler selects the non-blocking body; with no handler and blocking
emulation on, the entry delegates to — and returns exactly the outcome
of — the blocking twin; with no handler and blocking emulation off, the
non-blocking body runs with no observer. -/
theorem dual_mode_dispatch (tox h : Bool) (es : ToxEncryptSave) (p : Provider)
    (dataLen passLen keyLen saltLen : Nat) :
    (mkToxEncryptSave tox none).syncFlag = true
    ∧ getEncryptionExtraLength es p true = .async (getEncryptionExtraLengthAsync p true)
    ∧ getEncryptionExtraLength ⟨h, true⟩ p false = .sync (getEncryptionExtraLengthSync p)
    ∧ getEncryptionExtraLength ⟨h, false⟩ p false = .async (getEncryptionExtraLengthAsync p false)
    ∧ getKeyLength es p true = .async (getKeyLengthAsync p true)
    ∧ getKeyLength ⟨h, true⟩ p false = .sync (getKeyLengthSync p)
    ∧ getKeyLength ⟨h, false⟩ p false = .async (getKeyLengthAsync p false)
    ∧ getSaltLength es p true = .async (getSaltLengthAsync p true)
    ∧ getSaltLength ⟨h, true⟩ p false = .sync (getSaltLengthSync p)
    ∧ getSaltLength ⟨h, false⟩ p false = .async (getSaltLengthAsync p false)
    ∧ getEncryptedSize es p true = .async (getEncryptedSizeAsync es p true)
    ∧ getEncryptedSize ⟨h, true⟩ p false = .sync (getEncryptedSizeSync ⟨h, true⟩ p)
    ∧ getEncryptedSize ⟨h, false⟩ p false = .async (getEncryptedSizeAsync ⟨h, false⟩ p false)
    ∧ passEncrypt es p dataLen passLen true = .async (passEncryptAsync p dataLen passLen true)
    ∧ passEncrypt ⟨h, true⟩ p dataLen passLen false = .sync (passEncryptSync p dataLen passLen)
    ∧ passEncrypt ⟨h, false⟩ p dataLen passLen false = .async (passEncryptAsync p dataLen passLen false)
    ∧ passDecrypt es p dataLen passLen true = .async (passDecryptAsync p dataLen passLen true)
    ∧ passDecrypt ⟨h, true⟩ p dataLen passLen false = .sync (passDecryptSync p dataLen passLen)
    ∧ passDecrypt ⟨h, false⟩ p dataLen passLen false = .async (passDecryptAsync p dataLen passLen false)
    ∧ encryptedLoad es p dataLen passLen true = .async (encryptedLoadAsync es p dataLen passLen true)
    ∧ encryptedLoad ⟨h, true⟩ p dataLen passLen false = .sync (encryptedLoadSync ⟨h, true⟩ p dataLen passLen)
    ∧ encryptedLoad ⟨h, false⟩ p dataLen passLen false = .async (encryptedLoadAsync ⟨h, false⟩ p dataLen passLen false)
    ∧ encryptedSave es p passLen true = .async (encryptedSaveAsync es p passLen true)
    ∧ encryptedSave ⟨h, true⟩ p passLen false = .sync (encryptedSaveSync ⟨h, true⟩ p passLen)
    ∧ encryptedSave ⟨h, false⟩ p passLen false = .async (encryptedSaveAsync ⟨h, false⟩ p passLen false)
    ∧ deriveKeyFromPass es p passLen true = .async (deriveKeyFromPassAsync p passLen true)
    ∧ deriveKeyFromPass ⟨h, true⟩ p passLen false = .sync (deriveKeyFromPassSync p passLen)
    ∧ deriveKeyFromPass ⟨h, false⟩ p passLen false = .async (deriveKeyFromPassAsync p passLen false)
    ∧ deriveKeyWithSalt es p passLen saltLen true = .async (deriveKeyWithSaltAsync p passLen saltLen true)
    ∧ deriveKeyWithSalt ⟨h, true⟩ p passLen saltLen false = .sync (deriveKeyWithSaltSync p passLen saltLen)
    ∧ deriveKeyWithSalt ⟨h, false⟩ p passLen saltLen false = .async (deriveKeyWithSaltAsync p passLen saltLen false)
    ∧ getSalt es p dataLen true = .async (getSaltAsync p dataLen true)
    ∧ getSalt ⟨h, true⟩ p dataLen false = .sync (getSaltSync p dataLen)
    ∧ getSalt ⟨h, false⟩ p dataLen false = .async (getSaltAsync p dataLen false)
    ∧ passKeyEncrypt es p dataLen keyLen true = .async (passKeyEncryptAsync p dataLen keyLen true)
    ∧ passKeyEncrypt ⟨h, true⟩ p dataLen keyLen false = .sync (passKeyEncryptSync p dataLen keyLen)
    ∧ passKeyEncrypt ⟨h, false⟩ p dataLen keyLen false = .async (passKeyEncryptAsync p dataLen keyLen false)
    ∧ passKeyDecrypt es p dataLen keyLen true = .async (passKeyDecryptAsync p dataLen keyLen true)
    ∧ passKeyDecrypt ⟨h, true⟩ p dataLen keyLen false = .sync (passKeyDecryptSync p dataLen keyLen)
    ∧ passKeyDecrypt ⟨h, false⟩ p dataLen keyLen false = .async (passKeyDecryptAsync p dataLen keyLen false)
    ∧ encryptedKeySave es p keyLen true = .async (encryptedKeySaveAsync es p keyLen true)
    ∧ encryptedKeySave ⟨h, true⟩ p keyLen false = .sync (encryptedKeySaveSync ⟨h, true⟩ p keyLen)
    ∧ encryptedKeySave ⟨h, false⟩ p keyLen false = .async (encryptedKeySaveAsync ⟨h, false⟩ p keyLen false)
    ∧ encryptedKeyLoad es p dataLen keyLen true = .async (encryptedKeyLoadAsync es p dataLen keyLen true)
    ∧ encryptedKeyLoad ⟨h, true⟩ p dataLen keyLen false = .sync (encryptedKeyLoadSync ⟨h, true⟩ p dataLen keyLen)
    ∧ encryptedKeyLoad ⟨h, false⟩ p dataLen keyLen false = .async (encryptedKeyLoadAsync ⟨h, false⟩ p dataLen keyLen false)
    ∧ isDataEncrypted es p dataLen true = .async (isDataEncryptedAsync p dataLen true)
    ∧ isDataEncrypted ⟨h, true⟩ p dataLen false = .sync (isDataEncryptedSync p dataLen)
    ∧ isDataEncrypted ⟨h, false⟩ p dataLen false = .async (isDataEncryptedAsync p dataLen false) := by
  simp [mkToxEncryptSave, getEncryptionExtraLength, getKeyLength, getSaltLength,
    getEncryptedSize, passEncrypt, passDecrypt, encryptedLoad, encryptedSave,
    deriveKeyFromPass, deriveKeyWithSalt, getSalt, passKeyEncrypt, passKeyDecrypt,
    encryptedKeySave, encryptedKeyLoad, isDataEncrypted,
    ToxEncryptSave.useSync, hasCallback]

/-- C6 counterexample: on the non-blocking path of passEncrypt (extra
length 4, 2-byte input, primitive returning −1), the single handler
invocation carries BOTH the NonZeroReturnError and the allocated 6-byte
output buffer as its second argument — the claim says an error is never
accompanied by a result value. -/
theorem callback_error_carries_buffer :
    (passEncryptAsync { withExtra 4 with tox_pass_encrypt := .ok (-1) } 2 3 true).cbs
      = [(some (createNonZeroReturnError "tox_pass_encrypt" (-1)), some ⟨6⟩)] := by
  rfl

/-- C6 amended: on the non-blocking convention with a handler, every public
operation invokes the handler exactly once (decrypt-class operations taken
at input length ≥ extra length, where no exception escapes a completion
context): success delivers `(undefined, result)`, a preliminary-query or
ffi failure of a single-step operation delivers the error, load-class
operations deliver only the error slot — but when the main primitive's
result is classified as an error, the data-returning operations deliver
the error TOGETHER with the allocated output buffer in the second
argument. -/
theorem callback_single_invocation_shapes (extra k dataLen passLen keyLen saltLen
    keyLength encSize : Nat) (res : Int) (e : JsError) (s : Bool) :
    (getEncryptionExtraLengthAsync { P0 with tox_pass_encryption_extra_length := .ok res } true).cbs
      = [(none, some res)]
    ∧ (getEncryptionExtraLengthAsync { P0 with tox_pass_encryption_extra_length := .error e } true).cbs
      = [(some e, none)]
    ∧ (getKeyLengthAsync { P0 with tox_pass_key_length := .ok res } true).cbs
      = [(none, some res)]
    ∧ (getSaltLengthAsync { P0 with tox_pass_salt_length := .error e } true).cbs
      = [(some e, none)]
    ∧ (getEncryptedSizeAsync ⟨true, s⟩ { P0 with tox_encrypted_size := .ok res } true).cbs
      = [(none, some res)]
    ∧ (passEncryptAsync { withExtra extra with tox_pass_encrypt := .ok res }
        dataLen passLen true).cbs
      = [((if res = 0 then none
           else some (createNonZeroReturnError "tox_pass_encrypt" res)),
          some ⟨dataLen + extra⟩)]
    ∧ (passDecryptAsync { withExtra extra with tox_pass_decrypt := .ok res }
        (extra + k) passLen true).cbs
      = [((if res = (k : Int) then none
           else some (createReturnError "tox_pass_decrypt" res (k : Int))),
          some ⟨k⟩)]
    ∧ (passKeyEncryptAsync { withExtra extra with tox_pass_key_encrypt := .ok res }
        dataLen keyLen true).cbs
      = [((if res = 0 then none
           else some (createNonZeroReturnError "tox_pass_key_encrypt" res)),
          some ⟨dataLen + extra⟩)]
    ∧ (passKeyDecryptAsync { withExtra extra with tox_pass_key_decrypt := .ok res }
        (extra + k) keyLen true).cbs
      = [((if res = (k : Int) then none
           else some (createReturnError "tox_pass_key_decrypt" res (k : Int))),
          some ⟨k⟩)]
    ∧ (deriveKeyFromPassAsync
        { P0 with
          tox_pass_key_length := .ok (keyLength : Int)
          tox_derive_key_from_pass := .ok res } passLen true).cbs
      = [((if res = 0 then none
           else some (createNonZeroReturnError "tox_derive_key_from_pass" res)),
          some ⟨keyLength⟩)]
    ∧ (deriveKeyWithSaltAsync
        { P0 with
          tox_pass_key_length := .ok (keyLength : Int)
          tox_derive_key_with_salt := .ok res } passLen saltLen true).cbs
      = [((if res = 0 then none
           else some (createNonZeroReturnError "tox_derive_key_with_salt" res)),
          some ⟨keyLength⟩)]
    ∧ (getSaltAsync { P0 with tox_get_salt := .ok res } dataLen true).cbs
      = [((if res = 0 then none
           else some (createNonZeroReturnError "tox_get_salt" res)),
          some ⟨TOX_SALT_LENGTH⟩)]
    ∧ (encryptedSaveAsync ⟨true, s⟩
        { P0 with
          tox_encrypted_size := .ok (encSize : Int)
          tox_encrypted_save := .ok res } passLen true).cbs
      = [((if res = 0 then none
           else some (createNonZeroReturnError "tox_encrypted_save" res)),
          some ⟨encSize⟩)]
    ∧ (encryptedKeySaveAsync ⟨true, s⟩
        { P0 with
          tox_encrypted_size := .ok (encSize : Int)
          tox_encrypted_key_save := .ok res } keyLen true).cbs
      = [((if res = 0 then none
           else some (createNonZeroReturnError "tox_encrypted_key_save" res)),
          some ⟨encSize⟩)]
    ∧ (encryptedLoadAsync ⟨true, s⟩ { P0 with tox_encrypted_load := .ok res }
        dataLen passLen true).cbs
      = [((if res = 0 then none
           else some (createNonZeroReturnError "tox_encrypted_load" res)),
          none)]
    ∧ (encryptedKeyLoadAsync ⟨true, s⟩ { P0 with tox_encrypted_key_load := .ok res }
        dataLen keyLen true).cbs
      = [((if res = 0 then none
           else some (createNonZeroReturnError "tox_encrypted_key_load" res)),
          none)]
    ∧ (isDataEncryptedAsync { P0 with tox_is_data_encrypted := .ok res } dataLen true).cbs
      = [(none, some (res == 1))] := by
  refine ⟨?_, ?_, ?_, ?_, ?_, ?_, ?_, ?_, ?_, ?_, ?_, ?_, ?_, ?_, ?_, ?_, ?_⟩ <;>
    simp [getEncryptionExtraLengthAsync, getKeyLengthAsync, getSaltLengthAsync,
      getEncryptedSizeAsync, passEncryptAsync, passDecryptAsync, passKeyEncryptAsync,
      passKeyDecryptAsync, deriveKeyFromPassAsync, deriveKeyWithSaltAsync,
      getSaltAsync, encryptedSaveAsync, encryptedKeySaveAsync, encryptedLoadAsync,
      encryptedKeyLoadAsync, isDataEncryptedAsync, getEncryptedSizeCont,
      withExtra, P0, acall, emit, allocBuffer_add, allocBuffer_sub,
      allocBuffer_natCast] <;>
    split <;> simp

/-- C7 counterexample: the no-handle error actually produced by a
handle-bound operation is a plain Error — generic `name`, no structured
kind tag, nothing but its message string — so a caller cannot determine
its kind or read diagnostic fields without relying on the message. -/
theorem no_handle_error_untagged :
    createNoHandleError.kind = none
    ∧ createNoHandleError.name = "Error"
    ∧ (getEncryptedSizeSync ⟨false, true⟩ P0).result = .error createNoHandleError := by
  exact ⟨rfl, rfl, rfl⟩

/-- C7 amended: NonZeroReturnError and ReturnMismatchError are
distinguishable structured kinds whose diagnostic fields (operation name,
raw code, returned vs expected length) are accessible without parsing the
message; the no-handle error, by contrast, carries no structured kind tag
and is identifiable only by its message string. -/
theorem error_kinds_tagged_except_no_handle (op op2 : String)
    (code ret expected : Int) :
    (createNonZeroReturnError op code).kind = some (.nonZeroReturn op code)
    ∧ (createReturnError op ret expected).kind = some (.returnMismatch op ret expected)
    ∧ some (ToxErrorKind.nonZeroReturn op code)
        ≠ some (ToxErrorKind.returnMismatch op2 ret expected)
    ∧ createNoHandleError.kind = none := by
  refine ⟨rfl, rfl, ?_, rfl⟩
  simp
